import Mathlib

/-!
Verification of the prediction-league bot core against its specification.

Shallow embedding of the repository's Python sources:
* `scoring_system.py` — `ScoringConfig`, `AdvancedScoring.calculate_score`,
  `AdvancedScoring.get_user_streak`;
* `bot.py` — `DatabaseManager.make_prediction`, `store_weekly_markets`,
  `get_or_create_user`, `get_leaderboard`, and the table schemas they use;
* `app/main.py` / `app/models.py` — the FastAPI `resolve_prediction` route.

Timestamps are modelled as integers (seconds); dates as integers (days,
with day 0 a Monday, so Monday-alignment is `w % 7 = 0`); decimal prices
as rationals.  SQL result sets whose residual order the database does not
fix are modelled as relations (sets of admissible output lists) rather
than functions.
-/

/-- Python `int()` on a nonnegative-or-negative rational: truncation toward
zero, as applied to `base_score * contrarian_bonus_multiplier` in
`scoring_system.py`. -/
def pyInt (q : ℚ) : Int :=
  if 0 ≤ q then ⌊q⌋ else ⌈q⌉

/-- `ScoringConfig` from `scoring_system.py` (field for field). -/
structure ScoringConfig where
  base_correct_points : Int
  base_wrong_points : Int
  contrarian_bonus_threshold : ℚ
  contrarian_bonus_multiplier : ℚ
  streak_bonus_threshold : Nat
  streak_bonus_per_correct : Int
  early_bird_bonus_hours : Int
  early_bird_bonus : Int
  deriving DecidableEq, Repr

/-- The default values of `ScoringConfig` in `scoring_system.py`. -/
def defaultScoringConfig : ScoringConfig :=
  { base_correct_points := 10
    base_wrong_points := 0
    contrarian_bonus_threshold := 3/10
    contrarian_bonus_multiplier := 3/2
    streak_bonus_threshold := 3
    streak_bonus_per_correct := 2
    early_bird_bonus_hours := 24
    early_bird_bonus := 3 }

/-- The row fetched at the top of `AdvancedScoring.calculate_score`:
the prediction joined with its market's `resolution_value` and
`close_time`, plus the user's streak (the code computes it by a further
query `get_user_streak`; here it is passed in precomputed, as the claim's
frozen inputs do). -/
structure PredictionCtx where
  prediction : Bool
  resolution_value : Option Bool
  close_time : Int
  created_at : Int
  user_streak : Nat
  deriving DecidableEq, Repr

/-- `AdvancedScoring.calculate_score` from `scoring_system.py`, as a pure
function of the fetched row, the optional `market_odds` argument and the
config.  `market_odds` is a Python optional float defaulting to `None`;
the guard `if market_odds and market_odds < threshold` makes both `None`
and `0.0` fail the test, hence the `odds ≠ 0` conjunct. -/
def calculate_score (cfg : ScoringConfig) (p : PredictionCtx)
    (market_odds : Option ℚ) : Int :=
  match p.resolution_value with
  | none => 0
  | some outcome =>
    let is_correct := p.prediction = outcome
    let base_score :=
      if is_correct then cfg.base_correct_points else cfg.base_wrong_points
    if ¬ is_correct then
      base_score
    else
      let contrarian_bonus :=
        match market_odds with
        | none => 0
        | some odds =>
          if odds ≠ 0 ∧ odds < cfg.contrarian_bonus_threshold then
            pyInt ((base_score : ℚ) * cfg.contrarian_bonus_multiplier)
          else 0
      let early_bird_bonus :=
        if p.close_time - p.created_at > cfg.early_bird_bonus_hours * 3600 then
          cfg.early_bird_bonus
        else 0
      let streak_bonus :=
        if p.user_streak ≥ cfg.streak_bonus_threshold then
          ((p.user_streak : Int) - (cfg.streak_bonus_threshold : Int) + 1) *
            cfg.streak_bonus_per_correct
        else 0
      base_score + contrarian_bonus + early_bird_bonus + streak_bonus

/-- C1.  Scoring is deterministic in its frozen inputs (the embedding is a
pure function, so equal inputs give equal outputs), and in the concrete
case of a correct prediction with frozen yes-price 0.20, defaults
(base 10, contrarian multiplier 1.5, 24h early-bird window, streak
threshold 3), submission 30 hours before close and streak 0, the score
is 10 + 15 + 3 = 28. -/
theorem C1_scoring_deterministic (cfg : ScoringConfig)
    (p₁ p₂ : PredictionCtx) (odds₁ odds₂ : Option ℚ)
    (hp : p₁ = p₂) (ho : odds₁ = odds₂) :
    calculate_score cfg p₁ odds₁ = calculate_score cfg p₂ odds₂ ∧
    calculate_score defaultScoringConfig
      { prediction := true, resolution_value := some true,
        close_time := 30 * 3600, created_at := 0, user_streak := 0 }
      (some (1/5)) = 28 := by
  subst hp; subst ho
  refine ⟨rfl, ?_⟩
  norm_num [calculate_score, defaultScoringConfig, pyInt]

/-- Witness for C1 at concrete inputs. -/
theorem C1_scoring_deterministic_witness :
    calculate_score defaultScoringConfig
      { prediction := true, resolution_value := some true,
        close_time := 30 * 3600, created_at := 0, user_streak := 0 }
      (some (1/5)) = 28 :=
  (C1_scoring_deterministic defaultScoringConfig
    { prediction := true, resolution_value := some true,
      close_time := 30 * 3600, created_at := 0, user_streak := 0 }
    { prediction := true, resolution_value := some true,
      close_time := 30 * 3600, created_at := 0, user_streak := 0 }
    (some (1/5)) (some (1/5)) rfl rfl).2

/-- The Python loop at the bottom of `AdvancedScoring.get_user_streak`:
count leading `True`s, stop at the first `False`. -/
def streak_scan : List Bool → Nat
  | [] => 0
  | b :: rest => if b then streak_scan rest + 1 else 0

/-- `AdvancedScoring.get_user_streak` from `scoring_system.py`.  The input
list is the user's resolved predictions in reverse chronological order
(`ORDER BY p.created_at DESC`), each entry the Boolean
`p.prediction = wm.resolution_value`; the SQL `LIMIT 10` is `List.take 10`. -/
def get_user_streak (recent : List Bool) : Nat :=
  streak_scan (recent.take 10)

/-- The streak as the specification describes it: scan **all** resolved
predictions in reverse chronological order until the first incorrect one,
however long the run is (no cap).  Kept for comparison with
`get_user_streak`. -/
def streak_spec (recent : List Bool) : Nat :=
  streak_scan recent

theorem streak_scan_take (n : Nat) (l : List Bool) :
    streak_scan (l.take n) = min (streak_scan l) n := by
  induction l generalizing n with
  | nil => simp [streak_scan]
  | cons b rest ih =>
    cases n with
    | zero => simp [streak_scan]
    | succ n =>
      by_cases hb : b
      · simp [hb, streak_scan, List.take_succ_cons, ih, Nat.succ_min_succ]
      · simp [hb, streak_scan, List.take_succ_cons]

/-- Counterexample to C5: after eleven consecutive correct resolved
predictions, the code's streak (`LIMIT 10`) is 10, while the spec's
uncapped scan gives 11. -/
theorem C5_streak_counterexample :
    get_user_streak (List.replicate 11 true) = 10 ∧
    streak_spec (List.replicate 11 true) = 11 ∧
    get_user_streak (List.replicate 11 true) ≠
      streak_spec (List.replicate 11 true) := by
  refine ⟨?_, ?_, ?_⟩ <;> decide

/-- C5 (amended).  The streak used for the bonus is the run of consecutive
correct results among only the 10 most recent resolved predictions —
equivalently `min (uncapped streak) 10` — and when that streak is at least
the threshold 3, the bonus added by `calculate_score` (defaults) is
`(streak - 3 + 1) * 2`. -/
theorem C5_streak_amended (recent : List Bool) (p : PredictionCtx)
    (odds : Option ℚ) (outcome : Bool)
    (hres : p.resolution_value = some outcome)
    (hcorr : p.prediction = outcome)
    (hstreak : p.user_streak = get_user_streak recent)
    (hge : 3 ≤ get_user_streak recent) :
    get_user_streak recent = min (streak_spec recent) 10 ∧
    calculate_score defaultScoringConfig p odds =
      calculate_score defaultScoringConfig { p with user_streak := 0 } odds +
        ((get_user_streak recent : Int) - 3 + 1) * 2 := by
  constructor
  · exact streak_scan_take 10 recent
  · simp only [calculate_score, hres, hcorr, defaultScoringConfig, hstreak]
    simp [hge, Nat.not_succ_le_zero]

/-- Witness for C5 (amended) at four consecutive correct predictions. -/
theorem C5_streak_amended_witness :
    get_user_streak (List.replicate 4 true) =
      min (streak_spec (List.replicate 4 true)) 10 ∧
    calculate_score defaultScoringConfig
      { prediction := true, resolution_value := some true,
        close_time := 0, created_at := 0, user_streak := 4 } none =
      calculate_score defaultScoringConfig
        { prediction := true, resolution_value := some true,
          close_time := 0, created_at := 0, user_streak := 0 } none +
        ((get_user_streak (List.replicate 4 true) : Int) - 3 + 1) * 2 :=
  C5_streak_amended (List.replicate 4 true)
    { prediction := true, resolution_value := some true,
      close_time := 0, created_at := 0, user_streak := 4 }
    none true rfl rfl (by decide) (by decide)

/-- A row of the `users` table created in `DatabaseManager.create_tables`
(`bot.py`). -/
structure UserRow where
  id : Int
  username : String
  first_name : String
  total_score : Int
  weekly_score : Int
  predictions_made : Int
  predictions_correct : Int
  created_at : Int
  deriving DecidableEq, Repr

/-- A row of the `markets` table (`bot.py`).  `week_start` is a day
number with day 0 a Monday. -/
structure MarketRow where
  id : String
  title : String
  category : String
  close_time : Int
  week_start : Int
  is_resolved : Bool
  resolution : Option Bool
  volume : ℚ
  yes_price : ℚ
  no_price : ℚ
  deriving DecidableEq, Repr

/-- A row of the `predictions` table (`bot.py`); the serial `id` column is
not modelled (every operation below addresses rows by the
`(user_id, market_id, league_id)` key the code uses). -/
structure PredictionRow where
  user_id : Int
  market_id : String
  league_id : Int
  prediction : Bool
  confidence : Int
  points_earned : Int
  created_at : Int
  deriving DecidableEq, Repr

/-- The database state of `bot.py`: the four tables the verified
operations touch.  `league_members` rows are `(league_id, user_id)`
pairs. -/
structure DBState where
  users : List UserRow
  league_members : List (Int × Int)
  markets : List MarketRow
  predictions : List PredictionRow
  deriving DecidableEq, Repr

/-- The `WHERE user_id = $1 AND market_id = $2 AND league_id = $3` filter
used by `make_prediction`. -/
def predMatches (u : Int) (m : String) (l : Int) (p : PredictionRow) : Bool :=
  p.user_id == u && p.market_id == m && p.league_id == l

/-- `DatabaseManager.make_prediction` from `bot.py`: if a row for the
`(user, market, league)` triple exists, `UPDATE` its `prediction` and
`created_at`; otherwise `INSERT` a new row (`confidence` default 1,
`points_earned` default 0, `created_at = NOW()`) and increment the user's
`predictions_made`.  The code makes no reference to the market's
`close_time` and has no failure path. -/
def make_prediction (s : DBState) (u : Int) (m : String) (l : Int)
    (choice : Bool) (now : Int) : DBState :=
  if s.predictions.any (predMatches u m l) then
    { s with
      predictions := s.predictions.map fun p =>
        if predMatches u m l p then
          { p with prediction := choice, created_at := now }
        else p }
  else
    { s with
      predictions := s.predictions ++
        [{ user_id := u, market_id := m, league_id := l, prediction := choice,
           confidence := 1, points_earned := 0, created_at := now }]
      users := s.users.map fun usr =>
        if usr.id == u then
          { usr with predictions_made := usr.predictions_made + 1 }
        else usr }

theorem map_id_of_filter_nil {α : Type} (p : α → Bool) (f : α → α)
    (l : List α) (h : l.filter p = []) :
    (l.map fun x => if p x then f x else x) = l := by
  induction l with
  | nil => rfl
  | cons a t ih =>
    rw [List.filter_cons] at h
    by_cases hp : p a
    · simp [hp] at h
    · simp only [List.map_cons, if_neg hp]
      simp only [if_neg hp] at h
      rw [ih h]

/-- The row `INSERT INTO predictions ...` creates in `make_prediction`
(`confidence` and `points_earned` take their column defaults 1 and 0). -/
def predInsertRow (u : Int) (m : String) (l : Int) (c : Bool) (t : Int) :
    PredictionRow :=
  { user_id := u, market_id := m, league_id := l, prediction := c,
    confidence := 1, points_earned := 0, created_at := t }

theorem filter_nil_any_false {α : Type} (p : α → Bool) (l : List α)
    (h : l.filter p = []) : l.any p = false := by
  rw [List.any_eq_false]
  intro x hx hpx
  have hmem : x ∈ l.filter p := List.mem_filter.mpr ⟨hx, hpx⟩
  rw [h] at hmem
  exact (List.not_mem_nil x) hmem

theorem make_prediction_insert (s : DBState) (u : Int) (m : String) (l : Int)
    (c : Bool) (t : Int)
    (hnone : s.predictions.filter (predMatches u m l) = []) :
    make_prediction s u m l c t =
      { s with
        predictions := s.predictions ++ [predInsertRow u m l c t]
        users := s.users.map fun usr =>
          if usr.id == u then
            { usr with predictions_made := usr.predictions_made + 1 }
          else usr } := by
  have hany := filter_nil_any_false (predMatches u m l) s.predictions hnone
  simp [make_prediction, hany, predInsertRow]

theorem make_prediction_update (s : DBState) (u : Int) (m : String) (l : Int)
    (c : Bool) (t : Int)
    (hsome : s.predictions.any (predMatches u m l) = true) :
    make_prediction s u m l c t =
      { s with
        predictions := s.predictions.map fun p =>
          if predMatches u m l p then
            { p with prediction := c, created_at := t }
          else p } := by
  simp [make_prediction, hsome]

theorem predMatches_insertRow (u : Int) (m : String) (l : Int) (c : Bool)
    (t : Int) : predMatches u m l (predInsertRow u m l c t) = true := by
  simp [predMatches, predInsertRow]

/-- C2.  Starting from a state with no prediction for the
`(user, market, league)` triple, submitting twice with different choices
leaves exactly one prediction row for the triple, that row carries the
second choice (and the second submission's timestamp), and the user's
`predictions_made` is incremented exactly once relative to the initial
state (on the insert, not on the update). -/
theorem C2_idempotent_submission (s : DBState) (u : Int) (m : String)
    (l : Int) (c₁ c₂ : Bool) (t₁ t₂ : Int)
    (hnone : s.predictions.filter (predMatches u m l) = [])
    (_hdiff : c₁ ≠ c₂) :
    (make_prediction (make_prediction s u m l c₁ t₁) u m l c₂ t₂).predictions.filter
        (predMatches u m l) = [predInsertRow u m l c₂ t₂] ∧
    (make_prediction (make_prediction s u m l c₁ t₁) u m l c₂ t₂).users =
      s.users.map fun usr =>
        if usr.id == u then
          { usr with predictions_made := usr.predictions_made + 1 }
        else usr := by
  rw [make_prediction_insert s u m l c₁ t₁ hnone]
  have hany2 : (s.predictions ++ [predInsertRow u m l c₁ t₁]).any
      (predMatches u m l) = true := by
    rw [List.any_append]
    simp [predMatches_insertRow]
  rw [make_prediction_update _ u m l c₂ t₂ hany2]
  constructor
  · show ((s.predictions ++ [predInsertRow u m l c₁ t₁]).map _).filter _ = _
    rw [List.map_append,
      map_id_of_filter_nil (predMatches u m l) _ s.predictions hnone,
      List.filter_append, hnone]
    simp [predMatches, predInsertRow, List.filter]
  · rfl

/-- Witness for C2: a concrete user, market and two submissions. -/
theorem C2_idempotent_submission_witness :
    (make_prediction
        (make_prediction
          { users := [{ id := 7, username := "bob", first_name := "Bob",
                        total_score := 0, weekly_score := 0,
                        predictions_made := 0, predictions_correct := 0,
                        created_at := 0 }],
            league_members := [(1, 7)], markets := [], predictions := [] }
          7 "MKT-1" 1 true 5)
        7 "MKT-1" 1 false 6).predictions.filter (predMatches 7 "MKT-1" 1) =
      [predInsertRow 7 "MKT-1" 1 false 6] ∧
    (make_prediction
        (make_prediction
          { users := [{ id := 7, username := "bob", first_name := "Bob",
                        total_score := 0, weekly_score := 0,
                        predictions_made := 0, predictions_correct := 0,
                        created_at := 0 }],
            league_members := [(1, 7)], markets := [], predictions := [] }
          7 "MKT-1" 1 true 5)
        7 "MKT-1" 1 false 6).users =
      [{ id := 7, username := "bob", first_name := "Bob", total_score := 0,
         weekly_score := 0, predictions_made := 1, predictions_correct := 0,
         created_at := 0 }] :=
  C2_idempotent_submission
    { users := [{ id := 7, username := "bob", first_name := "Bob",
                  total_score := 0, weekly_score := 0, predictions_made := 0,
                  predictions_correct := 0, created_at := 0 }],
      league_members := [(1, 7)], markets := [], predictions := [] }
    7 "MKT-1" 1 true false 5 6 rfl (by decide)

/-- A stored market whose `close_time` (100) is already past. -/
def closedMarket : MarketRow :=
  { id := "MKT-CLOSED", title := "Closed market", category := "General",
    close_time := 100, week_start := 0, is_resolved := false,
    resolution := none, volume := 0, yes_price := 1/2, no_price := 1/2 }

/-- A state holding one user, the default league membership and one
already-closed market, with an empty prediction ledger. -/
def closedMarketState : DBState :=
  { users := [{ id := 1, username := "alice", first_name := "Alice",
                total_score := 0, weekly_score := 0, predictions_made := 0,
                predictions_correct := 0, created_at := 0 }],
    league_members := [(1, 1)], markets := [closedMarket], predictions := [] }

/-- Counterexample to C3: at time 200, past the market's `close_time`
of 100, `make_prediction` still mutates the prediction ledger — a row is
recorded — rather than failing; no `MarketClosedError` (or any close-time
check) exists in `make_prediction`. -/
theorem C3_post_close_counterexample :
    (∃ mk ∈ closedMarketState.markets,
        mk.id = "MKT-CLOSED" ∧ mk.close_time ≤ 200) ∧
    (make_prediction closedMarketState 1 "MKT-CLOSED" 1 true 200).predictions ≠
      closedMarketState.predictions := by
  refine ⟨⟨closedMarket, ?_, rfl, by decide⟩, ?_⟩
  · exact List.mem_singleton.mpr rfl
  · have h := make_prediction_insert closedMarketState 1 "MKT-CLOSED" 1 true 200 rfl
    rw [h]
    intro hcontra
    have : ([] : List PredictionRow) ++ [predInsertRow 1 "MKT-CLOSED" 1 true 200] =
        ([] : List PredictionRow) := hcontra
    simp at this

/-- C3 (amended).  `make_prediction` performs no close-time check: even
when the market's `close_time` is at or before `now`, submission succeeds
and mutates the ledger exactly as for an open market — a fresh triple is
inserted and `predictions_made` is incremented.  (The chat layer merely
omits buttons for closed markets; the data layer accepts the write.) -/
theorem C3_no_close_check_amended (s : DBState) (u : Int) (m : String)
    (l : Int) (c : Bool) (now : Int)
    (_hclosed : ∃ mk ∈ s.markets, mk.id = m ∧ mk.close_time ≤ now)
    (hnone : s.predictions.filter (predMatches u m l) = []) :
    (make_prediction s u m l c now).predictions =
      s.predictions ++ [predInsertRow u m l c now] ∧
    (make_prediction s u m l c now).users =
      s.users.map fun usr =>
        if usr.id == u then
          { usr with predictions_made := usr.predictions_made + 1 }
        else usr := by
  rw [make_prediction_insert s u m l c now hnone]
  exact ⟨rfl, rfl⟩

/-- Witness for C3 (amended) at the closed-market state. -/
theorem C3_no_close_check_amended_witness :
    (make_prediction closedMarketState 1 "MKT-CLOSED" 1 true 200).predictions =
      closedMarketState.predictions ++ [predInsertRow 1 "MKT-CLOSED" 1 true 200] ∧
    (make_prediction closedMarketState 1 "MKT-CLOSED" 1 true 200).users =
      closedMarketState.users.map fun usr =>
        if usr.id == 1 then
          { usr with predictions_made := usr.predictions_made + 1 }
        else usr :=
  C3_no_close_check_amended closedMarketState 1 "MKT-CLOSED" 1 true 200
    ⟨closedMarket, List.mem_singleton.mpr rfl, rfl, by decide⟩ rfl

/-- A row of the `predictions` table of `app/models.py` (the FastAPI
variant of the repository): `result` is `NULL` until resolved. -/
structure AppPrediction where
  id : Int
  question : String
  result : Option String
  deriving DecidableEq, Repr

/-- The `resolve_prediction` route of `app/main.py` (admin key already
checked): look the prediction up by id — `.first()` — and on a miss raise
`HTTPException(status_code=404)`; otherwise set `result` to the supplied
value unconditionally and return the prediction's id.  The updated table
is returned alongside the id to model the committed session. -/
def resolve_prediction (db : List AppPrediction) (pid : Int) (result : String) :
    Except Nat (List AppPrediction × Int) :=
  match db.find? (fun p => p.id == pid) with
  | none => .error 404
  | some p =>
    .ok (db.map fun q => if q.id == pid then { q with result := some result }
         else q, p.id)

/-- Counterexample to C4: a prediction already resolved to `"yes"` is
resolved again with `"no"`; the call does not fail with any
already-resolved error — it succeeds and overwrites the stored result. -/
theorem C4_double_resolve_counterexample :
    (∃ p ∈ [({ id := 1, question := "q", result := some "yes" } : AppPrediction)],
        p.id = 1 ∧ p.result ≠ none) ∧
    resolve_prediction
        [{ id := 1, question := "q", result := some "yes" }] 1 "no" =
      .ok ([{ id := 1, question := "q", result := some "no" }], 1) := by
  constructor
  · exact ⟨_, List.mem_singleton.mpr rfl, rfl, by decide⟩
  · rfl

/-- C4 (amended).  Resolving a prediction id that is absent fails with
HTTP 404 (`NotFoundError`); resolving an existing id always succeeds —
including a second resolution, which overwrites the stored result with the
new value instead of failing with an already-resolved error (`points_earned`
and user aggregates do not exist in this variant and are untouched). -/
theorem C4_resolve_amended (db : List AppPrediction) (pid : Int)
    (res : String) :
    ((∀ p ∈ db, p.id ≠ pid) → resolve_prediction db pid res = .error 404) ∧
    (∀ p₀ ∈ db, p₀.id = pid →
      ∃ db' i, resolve_prediction db pid res = .ok (db', i) ∧
        ∀ q ∈ db', q.id = pid → q.result = some res) := by
  constructor
  · intro hmiss
    have hfind : db.find? (fun p => p.id == pid) = none := by
      rw [List.find?_eq_none]
      intro p hp
      simp [hmiss p hp]
    simp [resolve_prediction, hfind]
  · intro p₀ hp₀ hid
    cases hfind : db.find? (fun p => p.id == pid) with
    | none =>
      exfalso
      have hno := List.find?_eq_none.mp hfind p₀ hp₀
      simp [hid] at hno
    | some p =>
      refine ⟨db.map fun q =>
          if q.id == pid then { q with result := some res } else q,
        p.id, ?_, ?_⟩
      · simp [resolve_prediction, hfind]
      · intro q hq hqid
        rw [List.mem_map] at hq
        obtain ⟨x, hx, hxq⟩ := hq
        by_cases hxi : (x.id == pid) = true
        · rw [if_pos hxi] at hxq
          rw [← hxq]
        · exfalso
          apply hxi
          rw [if_neg hxi] at hxq
          rw [hxq]
          simp [hqid]

/-- Witness for C4 (amended): a one-row table, a missing id and a present
id. -/
theorem C4_resolve_amended_witness :
    resolve_prediction [{ id := 2, question := "q2", result := none }] 1 "yes" =
      .error 404 ∧
    ∃ db' i,
      resolve_prediction [{ id := 2, question := "q2", result := none }] 2 "yes" =
        .ok (db', i) ∧
      ∀ q ∈ db', q.id = 2 → q.result = some "yes" :=
  ⟨(C4_resolve_amended [{ id := 2, question := "q2", result := none }] 1
      "yes").1 (by decide),
   (C4_resolve_amended [{ id := 2, question := "q2", result := none }] 2
      "yes").2 { id := 2, question := "q2", result := none }
      (List.mem_singleton.mpr rfl) rfl⟩

/-- A candidate market as passed to `store_weekly_markets` after its
preprocessing: id (ticker), title, category, parsed close time, and the
price/volume snapshot. -/
structure CandidateMarket where
  id : String
  title : String
  category : String
  close_time : Int
  volume : ℚ
  yes_price : ℚ
  no_price : ℚ
  deriving DecidableEq, Repr

/-- The row the `INSERT INTO markets (id, title, category, close_time,
week_start, volume, yes_price, no_price)` creates (`is_resolved`,
`resolution` take their column defaults). -/
def marketInsertRow (c : CandidateMarket) (week_start : Int) : MarketRow :=
  { id := c.id, title := c.title, category := c.category,
    close_time := c.close_time, week_start := week_start,
    is_resolved := false, resolution := none, volume := c.volume,
    yes_price := c.yes_price, no_price := c.no_price }

/-- The `ON CONFLICT (id) DO UPDATE SET` list of `store_weekly_markets`:
title, category, close_time, volume and both prices are refreshed;
`week_start`, `is_resolved` and `resolution` are not in the SET list and
keep their stored values. -/
def marketUpdateRow (c : CandidateMarket) (mk : MarketRow) : MarketRow :=
  { mk with title := c.title, category := c.category,
            close_time := c.close_time, volume := c.volume,
            yes_price := c.yes_price, no_price := c.no_price }

/-- One `INSERT ... ON CONFLICT (id) DO UPDATE` statement of
`DatabaseManager.store_weekly_markets` (`bot.py`). -/
def upsert_market (s : DBState) (c : CandidateMarket) (week_start : Int) :
    DBState :=
  if s.markets.any (fun mk => mk.id == c.id) then
    { s with markets := s.markets.map fun mk =>
        if mk.id == c.id then marketUpdateRow c mk else mk }
  else
    { s with markets := s.markets ++ [marketInsertRow c week_start] }

/-- `DatabaseManager.store_weekly_markets` from `bot.py`: one upsert per
candidate, in order.  The function performs no validation of `week_start`
(in particular no Monday-alignment check) and has no failure path. -/
def store_weekly_markets (s : DBState) (markets_data : List CandidateMarket)
    (week_start : Int) : DBState :=
  markets_data.foldl (fun st c => upsert_market st c week_start) s

theorem filter_singleton_any_true {α : Type} (p : α → Bool) (l : List α)
    (x : α) (h : l.filter p = [x]) : l.any p = true := by
  have hx : x ∈ l.filter p := by rw [h]; exact List.mem_singleton.mpr rfl
  rw [List.mem_filter] at hx
  rw [List.any_eq_true]
  exact ⟨x, hx.1, hx.2⟩

theorem filter_map_update {α : Type} (p : α → Bool) (f : α → α)
    (hpf : ∀ x, p x = true → p (f x) = true) (l : List α) :
    ((l.map fun x => if p x then f x else x).filter p) = (l.filter p).map f := by
  induction l with
  | nil => rfl
  | cons a t ih =>
    by_cases hp : p a = true
    · simp [List.filter_cons, hp, hpf a hp, ih]
    · simp [List.filter_cons, hp, ih]

/-- C6.  If exactly one stored market has the candidate's id, re-publishing
that candidate under any `week_start` value `w` refreshes the row's
mutable display fields (title, category, close_time, volume, prices) but
leaves its stored `week_start` unchanged — the market is not moved to a
different week. -/
theorem C6_republish_preserves_week (s : DBState) (c : CandidateMarket)
    (w : Int) (mk₀ : MarketRow)
    (hone : s.markets.filter (fun mk => mk.id == c.id) = [mk₀]) :
    (store_weekly_markets s [c] w).markets.filter (fun mk => mk.id == c.id) =
      [marketUpdateRow c mk₀] ∧
    ∀ mk ∈ (store_weekly_markets s [c] w).markets, mk.id = c.id →
      mk.week_start = mk₀.week_start ∧ mk.title = c.title ∧
      mk.category = c.category ∧ mk.volume = c.volume ∧
      mk.yes_price = c.yes_price ∧ mk.no_price = c.no_price := by
  have hany := filter_singleton_any_true (fun mk => mk.id == c.id)
    s.markets mk₀ hone
  have hstore : store_weekly_markets s [c] w =
      { s with markets := s.markets.map fun mk =>
          if mk.id == c.id then marketUpdateRow c mk else mk } := by
    show upsert_market s c w = _
    unfold upsert_market
    rw [hany, if_pos rfl]
  rw [hstore]
  have hpf : ∀ mk : MarketRow, (mk.id == c.id) = true →
      ((marketUpdateRow c mk).id == c.id) = true := by
    intro mk h
    simpa [marketUpdateRow] using h
  constructor
  · show ((s.markets.map fun mk =>
        if mk.id == c.id then marketUpdateRow c mk else mk).filter
          fun mk => mk.id == c.id) = _
    rw [filter_map_update _ _ hpf, hone]
    rfl
  · show ∀ mk ∈ s.markets.map fun mk =>
        if mk.id == c.id then marketUpdateRow c mk else mk, _
    intro mk hmk hid
    rw [List.mem_map] at hmk
    obtain ⟨x, hx, hxe⟩ := hmk
    by_cases hxi : (x.id == c.id) = true
    · rw [if_pos hxi] at hxe
      have hxmem : x ∈ s.markets.filter (fun mk => mk.id == c.id) :=
        List.mem_filter.mpr ⟨hx, hxi⟩
      rw [hone] at hxmem
      have hx0 : x = mk₀ := List.mem_singleton.mp hxmem
      rw [hx0] at hxe
      rw [← hxe]
      simp [marketUpdateRow]
    · exfalso
      apply hxi
      rw [if_neg hxi] at hxe
      rw [hxe]
      simp [hid]

/-- The stored market used by the re-publication witness: published under
`week_start = 0` (a Monday). -/
def mondayMarket : MarketRow :=
  { id := "W1", title := "Old title", category := "General",
    close_time := 1000, week_start := 0, is_resolved := false,
    resolution := none, volume := 5, yes_price := 0, no_price := 1 }

/-- A candidate with the same id as `mondayMarket` but refreshed display
fields. -/
def republishCand : CandidateMarket :=
  { id := "W1", title := "New title", category := "Politics",
    close_time := 2000, volume := 9, yes_price := 1, no_price := 0 }

/-- A store containing exactly `mondayMarket`. -/
def republishState : DBState :=
  { users := [], league_members := [], markets := [mondayMarket],
    predictions := [] }

/-- Witness for C6: re-publishing `republishCand` under a different
(Monday) week 7 refreshes the title but keeps week 0. -/
theorem C6_republish_preserves_week_witness :
    (store_weekly_markets republishState [republishCand] 7).markets.filter
        (fun mk => mk.id == republishCand.id) =
      [marketUpdateRow republishCand mondayMarket] ∧
    ∀ mk ∈ (store_weekly_markets republishState [republishCand] 7).markets,
      mk.id = republishCand.id →
      mk.week_start = mondayMarket.week_start ∧
      mk.title = republishCand.title ∧
      mk.category = republishCand.category ∧
      mk.volume = republishCand.volume ∧
      mk.yes_price = republishCand.yes_price ∧
      mk.no_price = republishCand.no_price :=
  C6_republish_preserves_week republishState republishCand 7 mondayMarket rfl

/-- The candidate used in the Monday-alignment scenarios. -/
def nonMondayCand : CandidateMarket :=
  { id := "NM", title := "T", category := "General", close_time := 500,
    volume := 0, yes_price := 0, no_price := 1 }

/-- An empty database state. -/
def emptyDB : DBState :=
  { users := [], league_members := [], markets := [], predictions := [] }

/-- Counterexample to C7: publishing under `week_start = 1` — a Tuesday,
not Monday-aligned — does not fail with `DataError` (there is no failure
path at all): the market is stored, carrying the misaligned week. -/
theorem C7_non_monday_counterexample :
    ((1 : Int) % 7 ≠ 0) ∧
    (store_weekly_markets emptyDB [nonMondayCand] 1).markets =
      [marketInsertRow nonMondayCand 1] :=
  ⟨by decide, rfl⟩

/-- C7 (amended).  `store_weekly_markets` performs no Monday-alignment
validation: publishing a fresh candidate under **any** `week_start`,
including a non-Monday one, succeeds and stores the market with exactly
the supplied `week_start`. -/
theorem C7_no_alignment_check_amended (s : DBState) (c : CandidateMarket)
    (w : Int) (_hnm : w % 7 ≠ 0)
    (hfresh : s.markets.filter (fun mk => mk.id == c.id) = []) :
    (store_weekly_markets s [c] w).markets =
      s.markets ++ [marketInsertRow c w] := by
  have hany := filter_nil_any_false (fun mk => mk.id == c.id) s.markets hfresh
  have hstore : store_weekly_markets s [c] w =
      { s with markets := s.markets ++ [marketInsertRow c w] } := by
    show upsert_market s c w = _
    unfold upsert_market
    rw [hany, if_neg Bool.false_ne_true]
  rw [hstore]

/-- Witness for C7 (amended) at the Tuesday date 1. -/
theorem C7_no_alignment_check_amended_witness :
    (store_weekly_markets emptyDB [nonMondayCand] 1).markets =
      emptyDB.markets ++ [marketInsertRow nonMondayCand 1] :=
  C7_no_alignment_check_amended emptyDB nonMondayCand 1 (by decide) rfl

/-- The `LEFT JOIN league_members lm ON u.id = lm.user_id AND
lm.league_id = $1` of `get_leaderboard` (`bot.py`).  A user row appears
once per matching membership row, or once (with NULL membership columns)
when no row matches; since the `SELECT` list only names `users` columns,
each joined row projects back to the user row. -/
def left_join_users (users : List UserRow) (lms : List (Int × Int))
    (league_id : Int) : List UserRow :=
  users.flatMap fun u =>
    List.replicate
      (max 1 ((lms.filter fun p => p.1 == league_id && p.2 == u.id).length)) u

/-- `ORDER BY u.total_score DESC, u.predictions_correct DESC`: row `a` may
be placed (weakly) before row `b`. -/
def leaderboard_ord (a b : UserRow) : Prop :=
  b.total_score < a.total_score ∨
    (b.total_score = a.total_score ∧
      b.predictions_correct ≤ a.predictions_correct)

instance : DecidableRel leaderboard_ord := fun a b =>
  inferInstanceAs (Decidable (b.total_score < a.total_score ∨
    (b.total_score = a.total_score ∧
      b.predictions_correct ≤ a.predictions_correct)))

/-- The ordering the specification asks for: `total_points` descending,
then `predictions_correct` descending, then account creation ascending.
Kept for comparison with `leaderboard_ord`. -/
def leaderboard_ord_spec (a b : UserRow) : Prop :=
  b.total_score < a.total_score ∨
    (b.total_score = a.total_score ∧
      (b.predictions_correct < a.predictions_correct ∨
        (b.predictions_correct = a.predictions_correct ∧
          a.created_at ≤ b.created_at)))

instance : DecidableRel leaderboard_ord_spec := fun a b =>
  inferInstanceAs (Decidable (b.total_score < a.total_score ∨
    (b.total_score = a.total_score ∧
      (b.predictions_correct < a.predictions_correct ∨
        (b.predictions_correct = a.predictions_correct ∧
          a.created_at ≤ b.created_at)))))

/-- `DatabaseManager.get_leaderboard` (`bot.py`) as a relation between the
database state and admissible result lists.  The queried rows are the left
join of `users` with `league_members`, restricted by
`WHERE u.predictions_made > 0`; the output is the first `limit` rows
(`LIMIT $2`) of some arrangement of them consistent with
`ORDER BY u.total_score DESC, u.predictions_correct DESC`.  The query
fixes nothing beyond those two sort keys, so every such arrangement is an
admissible result. -/
def IsLeaderboard (s : DBState) (league_id : Int) (limit : Nat)
    (out : List UserRow) : Prop :=
  ∃ full : List UserRow,
    full.Perm ((left_join_users s.users s.league_members league_id).filter
      fun u => decide (0 < u.predictions_made)) ∧
    full.Pairwise leaderboard_ord ∧
    out = full.take limit

/-- First of two users tied on both SQL sort keys; the later-created
account. -/
def tiedUserA : UserRow :=
  { id := 1, username := "a", first_name := "A", total_score := 10,
    weekly_score := 0, predictions_made := 3, predictions_correct := 2,
    created_at := 100 }

/-- Second tied user; the earlier-created account. -/
def tiedUserB : UserRow :=
  { id := 2, username := "b", first_name := "B", total_score := 10,
    weekly_score := 0, predictions_made := 3, predictions_correct := 2,
    created_at := 50 }

/-- A state holding the two tied users. -/
def tiedState : DBState :=
  { users := [tiedUserA, tiedUserB], league_members := [], markets := [],
    predictions := [] }

/-- Counterexample to C8: with two users tied on `total_score` and
`predictions_correct`, both result orders are admissible for the query —
so re-querying need not be identical — and the admissible order placing
the later-created account first violates the claimed created-at
tiebreak. -/
theorem C8_leaderboard_tiebreak_counterexample :
    IsLeaderboard tiedState 1 10 [tiedUserA, tiedUserB] ∧
    IsLeaderboard tiedState 1 10 [tiedUserB, tiedUserA] ∧
    [tiedUserA, tiedUserB] ≠ [tiedUserB, tiedUserA] ∧
    ¬ List.Pairwise leaderboard_ord_spec [tiedUserA, tiedUserB] := by
  have hfilter : ((left_join_users tiedState.users tiedState.league_members
      1).filter fun u => decide (0 < u.predictions_made)) =
      [tiedUserA, tiedUserB] := by decide
  refine ⟨⟨[tiedUserA, tiedUserB], ?_, by decide, rfl⟩,
    ⟨[tiedUserB, tiedUserA], ?_, by decide, rfl⟩, by decide, by decide⟩
  · rw [hfilter]
  · rw [hfilter]
    exact List.Perm.swap tiedUserA tiedUserB []

/-- C8 (amended).  Every admissible leaderboard result is sorted by the
two keys the query actually orders by — `total_score` descending, then
`predictions_correct` descending — is at most `limit` rows long, and
contains only users with `predictions_made > 0`.  No created-at tiebreak
is applied: the relative order of users tied on both keys is not
determined by the query. -/
theorem C8_leaderboard_order_amended (s : DBState) (league_id : Int)
    (limit : Nat) (out : List UserRow)
    (h : IsLeaderboard s league_id limit out) :
    out.Pairwise leaderboard_ord ∧ out.length ≤ limit ∧
    ∀ u ∈ out, 0 < u.predictions_made := by
  obtain ⟨full, hperm, hsort, hout⟩ := h
  subst hout
  refine ⟨hsort.sublist (List.take_sublist limit full), List.length_take_le _ _, ?_⟩
  intro u hu
  have hu' : u ∈ full := List.take_subset limit full hu
  have hmem := hperm.mem_iff.mp hu'
  rw [List.mem_filter] at hmem
  simpa using hmem.2

/-- Witness for C8 (amended) at the tied two-user state. -/
theorem C8_leaderboard_order_amended_witness :
    List.Pairwise leaderboard_ord [tiedUserA, tiedUserB] ∧
    [tiedUserA, tiedUserB].length ≤ 10 ∧
    ∀ u ∈ [tiedUserA, tiedUserB], 0 < u.predictions_made :=
  C8_leaderboard_order_amended tiedState 1 10 [tiedUserA, tiedUserB]
    ⟨[tiedUserA, tiedUserB], by decide, by decide, rfl⟩

theorem nodup_all_eq_length_le_one {α : Type} (l : List α) (a : α)
    (hnd : l.Nodup) (hall : ∀ x ∈ l, x = a) : l.length ≤ 1 := by
  match l with
  | [] => simp
  | [x] => simp
  | x :: y :: t =>
    exfalso
    have hx := hall x (by simp)
    have hy := hall y (by simp)
    rw [List.nodup_cons] at hnd
    exact hnd.1 (by rw [hx, ← hy]; exact List.mem_cons_self y t)

theorem left_join_users_of_nodup (users : List UserRow)
    (lms : List (Int × Int)) (league_id : Int) (hnd : lms.Nodup) :
    left_join_users users lms league_id = users := by
  unfold left_join_users
  have hone : ∀ u : UserRow,
      max 1 ((lms.filter fun p => p.1 == league_id && p.2 == u.id).length)
        = 1 := by
    intro u
    have hle : ((lms.filter fun p => p.1 == league_id && p.2 == u.id).length)
        ≤ 1 := by
      apply nodup_all_eq_length_le_one _ (league_id, u.id) (hnd.filter _)
      intro x hx
      rw [List.mem_filter] at hx
      have hp := hx.2
      rw [Bool.and_eq_true, beq_iff_eq, beq_iff_eq] at hp
      exact Prod.ext hp.1 hp.2
    exact Nat.max_eq_left hle
  induction users with
  | nil => rfl
  | cons u t ih =>
    rw [List.flatMap_cons, hone u, ih]
    rfl

/-- C9.  The leaderboard is independent of the league id argument: because
the membership join is a `LEFT JOIN` whose columns are never selected (and
`(league_id, user_id)` is the table's primary key, so no row is
duplicated), the admissible results for any two league ids coincide
exactly. -/
theorem C9_leaderboard_league_independent (s : DBState) (a b : Int)
    (limit : Nat) (out : List UserRow) (hnd : s.league_members.Nodup) :
    IsLeaderboard s a limit out ↔ IsLeaderboard s b limit out := by
  unfold IsLeaderboard
  rw [left_join_users_of_nodup s.users s.league_members a hnd,
    left_join_users_of_nodup s.users s.league_members b hnd]

/-- Witness for C9: the two-user state, league ids 1 and 2. -/
theorem C9_leaderboard_league_independent_witness :
    tiedState.league_members.Nodup ∧
    (IsLeaderboard tiedState 1 10 [tiedUserA, tiedUserB] ↔
      IsLeaderboard tiedState 2 10 [tiedUserA, tiedUserB]) :=
  ⟨by decide,
   C9_leaderboard_league_independent tiedState 1 2 10 [tiedUserA, tiedUserB]
     (by decide)⟩

/-- The `users` row inserted by `get_or_create_user` (counters at their
column defaults, `created_at = NOW()`; the Python `username or ''` /
`first_name or ''` normalisation is applied by the caller, so the strings
arrive already defaulted). -/
def newUserRow (uid : Int) (username first_name : String) (now : Int) :
    UserRow :=
  { id := uid, username := username, first_name := first_name,
    total_score := 0, weekly_score := 0, predictions_made := 0,
    predictions_correct := 0, created_at := now }

/-- `DatabaseManager.get_or_create_user` from `bot.py`: fetch the user row
by id; when absent, `INSERT` the row, then `INSERT INTO league_members
(league_id, user_id) VALUES (1, $1) ON CONFLICT DO NOTHING`, then
re-fetch.  Returns the resulting state together with the fetched row. -/
def get_or_create_user (s : DBState) (uid : Int)
    (username first_name : String) (now : Int) : DBState × Option UserRow :=
  match s.users.find? (fun u => u.id == uid) with
  | some u => (s, some u)
  | none =>
    let s₁ : DBState :=
      { s with users := s.users ++ [newUserRow uid username first_name now] }
    let s₂ : DBState :=
      if s₁.league_members.any fun p => p.1 == 1 && p.2 == uid then s₁
      else { s₁ with league_members := s₁.league_members ++ [(1, uid)] }
    (s₂, s₂.users.find? (fun u => u.id == uid))

theorem get_or_create_user_insert (s : DBState) (uid : Int)
    (username first_name : String) (now : Int)
    (hf : s.users.find? (fun u => u.id == uid) = none) :
    (get_or_create_user s uid username first_name now).1 =
      if s.league_members.any fun p => p.1 == 1 && p.2 == uid then
        { s with users := s.users ++ [newUserRow uid username first_name now] }
      else
        { s with
          users := s.users ++ [newUserRow uid username first_name now],
          league_members := s.league_members ++ [(1, uid)] } := by
  unfold get_or_create_user
  rw [hf]

/-- C10.  When the user id is absent, `get_or_create_user` inserts the
user row **and** a default-league membership `(1, uid)` in the same call,
so the all-users-are-members-of-league-1 invariant is preserved; when the
id is present, the call changes neither `users` nor `league_members` (nor
anything else in the state). -/
theorem C10_default_league_membership (s : DBState) (uid : Int)
    (username first_name : String) (now : Int) :
    (s.users.find? (fun u => u.id == uid) = none →
      (get_or_create_user s uid username first_name now).1.users =
          s.users ++ [newUserRow uid username first_name now] ∧
      (1, uid) ∈ (get_or_create_user s uid username first_name now).1.league_members ∧
      ((∀ u ∈ s.users, (1, u.id) ∈ s.league_members) →
        ∀ u ∈ (get_or_create_user s uid username first_name now).1.users,
          (1, u.id) ∈
            (get_or_create_user s uid username first_name now).1.league_members)) ∧
    (∀ u₀, s.users.find? (fun u => u.id == uid) = some u₀ →
      (get_or_create_user s uid username first_name now).1 = s) := by
  constructor
  · intro hf
    rw [get_or_create_user_insert s uid username first_name now hf]
    by_cases hm : (s.league_members.any fun p => p.1 == 1 && p.2 == uid) = true
    · rw [if_pos hm]
      rw [List.any_eq_true] at hm
      obtain ⟨p, hp, hpe⟩ := hm
      rw [Bool.and_eq_true, beq_iff_eq, beq_iff_eq] at hpe
      have hp1 : (1, uid) ∈ s.league_members := by
        have : p = (1, uid) := Prod.ext hpe.1 hpe.2
        rw [← this]
        exact hp
      refine ⟨rfl, hp1, ?_⟩
      intro hall u hu
      rw [List.mem_append] at hu
      rcases hu with hu | hu
      · exact hall u hu
      · have : u = newUserRow uid username first_name now :=
          List.mem_singleton.mp hu
        rw [this]
        exact hp1
    · rw [if_neg hm]
      have hp1 : (1, uid) ∈ s.league_members ++ [(1, uid)] := by
        rw [List.mem_append]
        exact Or.inr (List.mem_singleton.mpr rfl)
      refine ⟨rfl, hp1, ?_⟩
      intro hall u hu
      rw [List.mem_append] at hu
      rcases hu with hu | hu
      · rw [List.mem_append]
        exact Or.inl (hall u hu)
      · have : u = newUserRow uid username first_name now :=
          List.mem_singleton.mp hu
        rw [this]
        exact hp1
  · intro u₀ hf
    unfold get_or_create_user
    rw [hf]

/-- Witness for C10: an absent id on a one-user state, then a present
id. -/
theorem C10_default_league_membership_witness :
    ((get_or_create_user
        { users := [newUserRow 1 "a" "A" 0], league_members := [(1, 1)],
          markets := [], predictions := [] } 2 "b" "B" 5).1.users =
      [newUserRow 1 "a" "A" 0] ++ [newUserRow 2 "b" "B" 5] ∧
    (1, 2) ∈ (get_or_create_user
        { users := [newUserRow 1 "a" "A" 0], league_members := [(1, 1)],
          markets := [], predictions := [] } 2 "b" "B" 5).1.league_members ∧
    (∀ u ∈ (get_or_create_user
        { users := [newUserRow 1 "a" "A" 0], league_members := [(1, 1)],
          markets := [], predictions := [] } 2 "b" "B" 5).1.users,
      (1, u.id) ∈ (get_or_create_user
        { users := [newUserRow 1 "a" "A" 0], league_members := [(1, 1)],
          markets := [], predictions := [] } 2 "b" "B" 5).1.league_members)) ∧
    (get_or_create_user
        { users := [newUserRow 1 "a" "A" 0], league_members := [(1, 1)],
          markets := [], predictions := [] } 1 "x" "X" 9).1 =
      { users := [newUserRow 1 "a" "A" 0], league_members := [(1, 1)],
        markets := [], predictions := [] } := by
  have h₁ := (C10_default_league_membership
    { users := [newUserRow 1 "a" "A" 0], league_members := [(1, 1)],
      markets := [], predictions := [] } 2 "b" "B" 5).1 (by decide)
  have h₂ := (C10_default_league_membership
    { users := [newUserRow 1 "a" "A" 0], league_members := [(1, 1)],
      markets := [], predictions := [] } 1 "x" "X" 9).2
    (newUserRow 1 "a" "A" 0) (by decide)
  exact ⟨⟨h₁.1, h₁.2.1, h₁.2.2 (by decide)⟩, h₂⟩
